import Mathlib

/-!
Verification of the SwitchBot BLE advertisement decoder.

The development is a shallow embedding of `src/model.rs` and
`src/protocol.rs`: bytes are modelled as `Nat` (a `u8` value is a `Nat`
below 256, stated as a hypothesis where it matters), byte buffers as
`List Nat`, Rust slices indexed after a length guard as `List.getD`,
the `i32` / `i16` arithmetic as `Int` arithmetic (every intermediate is
shown to stay inside the machine range, so no wraparound modelling is
needed), and the fallible-free Rust functions as total Lean functions.
-/

/-- The device-model enumeration from `src/model.rs` (`SwitchBotDeviceModel`). -/
inductive SwitchBotDeviceModel
  | Button
  | FanAdd
  | Bot
  | HubAdd
  | HubMiniAdd
  | HubPlusAdd
  | Meter
  | Curtain
  | ContactSensor
  | Humidifier
  | Fan
  | PlugMiniUS
  | MeterPlus
  | PlugMiniJP
  | Hub
  | HubMini
  | SmartLock
  | HubPlus
  | LEDStripLight
  | MotionSensor
  | MeterAdd
  | ColorBulb
  deriving DecidableEq, Repr

/-- The per-family reading union from `src/model.rs` (`SwitchBotData`).
Field order follows the Rust declaration of each variant. -/
inductive SwitchBotData
  | Bot (battery : Nat) (state : Bool)
  | Meter (battery : Nat) (temperature : Int) (humidity : Nat)
  | Plug (wifi_rssi : Int) (state : Bool) (watts : Int) (overload : Bool)
  | Humidifier (state : Bool) (humidity : Nat) (auto_mode : Bool)
  deriving DecidableEq, Repr

/-- The discriminant value assigned to each variant in `src/model.rs`
(`#[repr(C)]` explicit values). -/
def modelCode : SwitchBotDeviceModel → Nat
  | .Button => 0x42
  | .FanAdd => 0x46
  | .Bot => 0x48
  | .HubAdd => 0x4C
  | .HubMiniAdd => 0x4D
  | .HubPlusAdd => 0x50
  | .Meter => 0x54
  | .Curtain => 0x63
  | .ContactSensor => 0x64
  | .Humidifier => 0x65
  | .Fan => 0x66
  | .PlugMiniUS => 0x67
  | .MeterPlus => 0x69
  | .PlugMiniJP => 0x6A
  | .Hub => 0x6C
  | .HubMini => 0x6D
  | .SmartLock => 0x6F
  | .HubPlus => 0x70
  | .LEDStripLight => 0x72
  | .MotionSensor => 0x73
  | .MeterAdd => 0x74
  | .ColorBulb => 0x75

/-- Embedding of `decode_model` from `src/protocol.rs`: mask the byte with
`0x7F` and look it up among the known model codes. -/
def decode_model (data : Nat) : Option SwitchBotDeviceModel :=
  match data &&& 0x7F with
  | 0x42 => some .Button
  | 0x46 => some .FanAdd
  | 0x48 => some .Bot
  | 0x4C => some .HubAdd
  | 0x4D => some .HubMiniAdd
  | 0x50 => some .HubPlusAdd
  | 0x54 => some .Meter
  | 0x63 => some .Curtain
  | 0x64 => some .ContactSensor
  | 0x65 => some .Humidifier
  | 0x66 => some .Fan
  | 0x67 => some .PlugMiniUS
  | 0x69 => some .MeterPlus
  | 0x6A => some .PlugMiniJP
  | 0x6C => some .Hub
  | 0x6D => some .HubMini
  | 0x6F => some .SmartLock
  | 0x70 => some .HubPlus
  | 0x72 => some .LEDStripLight
  | 0x73 => some .MotionSensor
  | 0x74 => some .MeterAdd
  | 0x75 => some .ColorBulb
  | _ => none

/-- A guarded Rust slice index `buf[i]`: in `decode_data` every index is
dominated by a length check, so reading with a default is observationally
the same as the Rust access. -/
def byteAt (l : List Nat) (i : Nat) : Nat :=
  (l[i]?).getD 0

/-- Embedding of `decode_data` from `src/protocol.rs`.  The `println!` diagnostics on
rejected lengths are side effects with no bearing on the returned value
and are dropped.  All magnitudes are computed in `Nat` (they are
nonnegative in the Rust code, where `/` truncates toward zero, which on
nonnegative operands coincides with `Nat` division) and signs are applied
in `Int`, mirroring the `i32` / `i16` expressions of the source. -/
def decode_data (service_data : List Nat) (manufacturer_data : Option (List Nat)) :
    Option SwitchBotDeviceModel × Option SwitchBotData :=
  if service_data.length < 3 then (none, none) else
  match decode_model (byteAt service_data 0) with
  | none => (none, none)
  | some model =>
    match model with
    | .Bot =>
      if service_data.length ≠ 3 then (none, none) else
      let state : Bool := byteAt service_data 1 &&& 0b01000000 == 0b01000000
      (some model, some (.Bot (byteAt service_data 2 &&& 0b01111111) state))
    | .Meter | .MeterPlus =>
      if service_data.length ≠ 6 then (none, none) else
      let temp_sign : Int := if byteAt service_data 4 &&& 0b10000000 == 0b10000000 then 1 else -1
      let temp_c : Int :=
        temp_sign * (((byteAt service_data 4 &&& 0b01111111)
          + (byteAt service_data 3 &&& 0b00001111) / 10 : Nat) : Int)
      (some model, some (.Meter (byteAt service_data 2 &&& 0b01111111) temp_c
        (byteAt service_data 5 &&& 0b01111111)))
    | .Humidifier =>
      if service_data.length ≠ 5 then (none, none) else
      let state : Bool := byteAt service_data 1 &&& 0b10000000 == 0b10000000
      let auto_mode : Bool := byteAt service_data 4 &&& 0b10000000 == 0b10000000
      let humidity_setting : Nat := byteAt service_data 4 &&& 0b01111111
      (some model, some (.Humidifier state humidity_setting auto_mode))
    | .PlugMiniUS | .PlugMiniJP =>
      match manufacturer_data with
      | none => (none, none)
      | some md =>
        if md.length ≠ 12 then (none, none) else
        let state : Bool := byteAt md 7 == 0x80
        let overload : Bool := byteAt md 10 &&& 0b10000000 == 0b10000000
        let watts : Int := (((byteAt md 10 &&& 0b01111111) <<< 8 + byteAt md 11) / 10 : Nat)
        (some model, some (.Plug (-(byteAt md 9 : Int)) state watts overload))
    | _ => (none, none)

/-- The list of byte codes with a `some` arm in `decode_model`, in source
order (one per variant of `SwitchBotDeviceModel`). -/
def knownModelCodes : List Nat :=
  [0x42, 0x46, 0x48, 0x4C, 0x4D, 0x50, 0x54, 0x63, 0x64, 0x65, 0x66, 0x67,
   0x69, 0x6A, 0x6C, 0x6D, 0x6F, 0x70, 0x72, 0x73, 0x74, 0x75]

/-- Whether a reading variant belongs to the family of a device model:
`Bot` readings to `Bot`, `Meter` readings to `Meter`/`MeterPlus`,
`Humidifier` readings to `Humidifier`, `Plug` readings to
`PlugMiniUS`/`PlugMiniJP`. -/
def familyMatches : SwitchBotDeviceModel → SwitchBotData → Bool
  | .Bot, .Bot _ _ => true
  | .Meter, .Meter _ _ _ => true
  | .MeterPlus, .Meter _ _ _ => true
  | .Humidifier, .Humidifier _ _ _ => true
  | .PlugMiniUS, .Plug _ _ _ _ => true
  | .PlugMiniJP, .Plug _ _ _ _ => true
  | _, _ => false

/-- Whether a device model belongs to one of the four families `decode_data`
can actually decode (the models that can appear paired with a reading). -/
def familyDecodable : SwitchBotDeviceModel → Bool
  | .Bot => true
  | .Meter => true
  | .MeterPlus => true
  | .Humidifier => true
  | .PlugMiniUS => true
  | .PlugMiniJP => true
  | _ => false

/-- Panic-instrumented embedding of `decode_data`: a `none` result marks a
Rust panic site — an out-of-bounds slice index, or an intermediate
arithmetic value outside its machine-integer range (`i32` for the meter
temperature, `i16` for the plug fields) — while `some` wraps the value the
original function returns on that input. -/
def decode_dataChecked (service_data : List Nat) (manufacturer_data : Option (List Nat)) :
    Option (Option SwitchBotDeviceModel × Option SwitchBotData) :=
  if service_data.length < 3 then some (none, none) else
  match service_data[0]? with
  | none => none
  | some b0 =>
    match decode_model b0 with
    | none => some (none, none)
    | some model =>
      match model with
      | .Bot =>
        if service_data.length ≠ 3 then some (none, none) else
        match service_data[1]?, service_data[2]? with
        | some b1, some b2 =>
          some (some model, some (.Bot (b2 &&& 0b01111111) (b1 &&& 0b01000000 == 0b01000000)))
        | _, _ => none
      | .Meter | .MeterPlus =>
        if service_data.length ≠ 6 then some (none, none) else
        match service_data[2]?, service_data[3]?, service_data[4]?, service_data[5]? with
        | some b2, some b3, some b4, some b5 =>
          let temp_sign : Int := if b4 &&& 0b10000000 == 0b10000000 then 1 else -1
          let temp_c : Int :=
            temp_sign * (((b4 &&& 0b01111111) + (b3 &&& 0b00001111) / 10 : Nat) : Int)
          if temp_c < -2147483648 ∨ 2147483647 < temp_c then none else
          some (some model, some (.Meter (b2 &&& 0b01111111) temp_c (b5 &&& 0b01111111)))
        | _, _, _, _ => none
      | .Humidifier =>
        if service_data.length ≠ 5 then some (none, none) else
        match service_data[1]?, service_data[4]? with
        | some b1, some b4 =>
          some (some model, some (.Humidifier (b1 &&& 0b10000000 == 0b10000000)
            (b4 &&& 0b01111111) (b4 &&& 0b10000000 == 0b10000000)))
        | _, _ => none
      | .PlugMiniUS | .PlugMiniJP =>
        match manufacturer_data with
        | none => some (none, none)
        | some md =>
          if md.length ≠ 12 then some (none, none) else
          match md[7]?, md[9]?, md[10]?, md[11]? with
          | some b7, some b9, some b10, some b11 =>
            let shifted : Nat := (b10 &&& 0b01111111) <<< 8
            if 32767 < shifted then none else
            if 32767 < shifted + b11 then none else
            if 32767 < b9 then none else
            some (some model, some (.Plug (-(b9 : Int)) (b7 == 0x80)
              (((shifted + b11) / 10 : Nat) : Int) (b10 &&& 0b10000000 == 0b10000000)))
          | _, _, _, _ => none
      | _ => some (none, none)

theorem land_127_eq_mod (n : Nat) : n &&& 127 = n % 128 := by
  have h := Nat.and_pow_two_sub_one_eq_mod n 7
  norm_num at h
  exact h

theorem land_15_eq_mod (n : Nat) : n &&& 15 = n % 16 := by
  have h := Nat.and_pow_two_sub_one_eq_mod n 4
  norm_num at h
  exact h

theorem land_64_beq (n : Nat) : (n &&& 64 == 64) = n.testBit 6 := by
  have h := Nat.and_two_pow n 6
  norm_num at h
  rw [h]
  cases hb : n.testBit 6 <;> simp

theorem land_128_beq (n : Nat) : (n &&& 128 == 128) = n.testBit 7 := by
  have h := Nat.and_two_pow n 7
  norm_num at h
  rw [h]
  cases hb : n.testBit 7 <;> simp

theorem byteAt_getElem? (l : List Nat) (i : Nat) (h : i < l.length) :
    l[i]? = some (byteAt l i) := by
  rw [List.getElem?_eq_getElem h]
  simp [byteAt, List.getElem?_eq_getElem h]

theorem byteAt_mem (l : List Nat) (i : Nat) (h : i < l.length) : byteAt l i ∈ l :=
  List.getElem?_mem (byteAt_getElem? l i h)

theorem shiftLeft8_eq (n : Nat) : n <<< 8 = n * 256 := by
  rw [Nat.shiftLeft_eq]

/-- Claim C1, counterexample: on the literal fixture bytes
`[0x69, 0x00, 0x64, 0x00, 0x80, 0x2A]` the decoder does not return a Meter
reading with temperature 23: byte 4 is `0x80`, whose low seven bits are 0,
and the low nibble of byte 3 is 0, so the decoded temperature is 0. -/
theorem meterplus_fixture_cex :
    decode_data [0x69, 0x00, 0x64, 0x00, 0x80, 0x2A] none ≠
      (some SwitchBotDeviceModel.MeterPlus,
       some (SwitchBotData.Meter 100 23 42)) := by decide

/-- Claim C1, amended: for every manufacturer_data argument (Some or None),
decoding `[0x69, 0x00, 0x64, 0x00, 0x80, 0x2A]` yields model `MeterPlus`
and a Meter reading with battery 100, temperature 0 and humidity 42. -/
theorem meterplus_fixture_decode (md? : Option (List Nat)) :
    decode_data [0x69, 0x00, 0x64, 0x00, 0x80, 0x2A] md? =
      (some SwitchBotDeviceModel.MeterPlus,
       some (SwitchBotData.Meter 100 0 42)) := by
  cases md? <;> rfl

/-- Claim C4: `decode_data` returns `(none, none)` when the service data is
shorter than 3 bytes, and likewise when it has at least 3 bytes but its
first byte does not classify as any known model. -/
theorem decode_data_reject (sd : List Nat) (md? : Option (List Nat))
    (h : sd.length < 3 ∨ (3 ≤ sd.length ∧ decode_model (byteAt sd 0) = none)) :
    decode_data sd md? = (none, none) := by
  unfold decode_data
  rcases h with h | ⟨h3, hm⟩
  · rw [if_pos h]
  · rw [if_neg (show ¬ sd.length < 3 by omega), hm]

/-- Claim C4, witness at the all-zero three-byte buffer. -/
theorem decode_data_reject_witness :
    (([0, 0, 0] : List Nat).length < 3 ∨
      (3 ≤ ([0, 0, 0] : List Nat).length ∧ decode_model (byteAt [0, 0, 0] 0) = none)) ∧
    decode_data [0, 0, 0] none = (none, none) :=
  ⟨Or.inr ⟨by decide, by decide⟩,
   decode_data_reject [0, 0, 0] none (Or.inr ⟨by decide, by decide⟩)⟩

/-- Claim C5: when the first service byte classifies as `Bot`, a buffer of
length exactly 3 decodes to a Bot reading whose state is bit 6 of byte 1
and whose battery is byte 2 reduced mod 128 (hence 0-127), while any other
length of at least 3 is rejected with `(none, none)`. -/
theorem decode_data_bot (sd : List Nat) (md? : Option (List Nat))
    (h3 : 3 ≤ sd.length)
    (hm : decode_model (byteAt sd 0) = some SwitchBotDeviceModel.Bot) :
    decode_data sd md? =
      if sd.length = 3 then
        (some SwitchBotDeviceModel.Bot,
         some (SwitchBotData.Bot (byteAt sd 2 % 128) ((byteAt sd 1).testBit 6)))
      else (none, none) := by
  unfold decode_data
  rw [if_neg (show ¬ sd.length < 3 by omega), hm]
  by_cases h : sd.length = 3 <;> simp [h, land_127_eq_mod, land_64_beq]

/-- Claim C5, witness at the repository's Bot test vector. -/
theorem decode_data_bot_witness :
    3 ≤ ([0x48, 0x40, 0x64] : List Nat).length ∧
    decode_model (byteAt [0x48, 0x40, 0x64] 0) = some SwitchBotDeviceModel.Bot ∧
    decode_data [0x48, 0x40, 0x64] none =
      (if ([0x48, 0x40, 0x64] : List Nat).length = 3 then
        (some SwitchBotDeviceModel.Bot,
         some (SwitchBotData.Bot (byteAt [0x48, 0x40, 0x64] 2 % 128)
           ((byteAt [0x48, 0x40, 0x64] 1).testBit 6)))
      else (none, none)) :=
  ⟨by decide, by decide, decode_data_bot _ none (by decide) (by decide)⟩

/-- Claim C2: for a service buffer of length exactly 6 whose first byte
classifies as `Meter` or `MeterPlus`, the decoder returns that model and a
Meter reading with battery = byte 2 mod 128, humidity = byte 5 mod 128, and
temperature = sign * (low 7 bits of byte 4 + (low nibble of byte 3) / 10),
where the sign is +1 exactly when bit 7 of byte 4 is set and the division
truncates (the fractional term is 0 for every nibble value 0-9). -/
theorem decode_data_meter (sd : List Nat) (md? : Option (List Nat))
    (h6 : sd.length = 6)
    (hm : decode_model (byteAt sd 0) = some SwitchBotDeviceModel.Meter ∨
          decode_model (byteAt sd 0) = some SwitchBotDeviceModel.MeterPlus) :
    ∃ m, decode_model (byteAt sd 0) = some m ∧
      decode_data sd md? =
        (some m,
         some (SwitchBotData.Meter (byteAt sd 2 % 128)
           ((if (byteAt sd 4).testBit 7 then (1 : Int) else -1) *
             ((byteAt sd 4 % 128 + byteAt sd 3 % 16 / 10 : Nat) : Int))
           (byteAt sd 5 % 128))) ∧
      (byteAt sd 3 % 16 ≤ 9 → byteAt sd 3 % 16 / 10 = 0) := by
  rcases hm with hm | hm <;>
    · refine ⟨_, hm, ?_, by omega⟩
      unfold decode_data
      rw [if_neg (show ¬ sd.length < 3 by omega), hm]
      simp [h6, land_127_eq_mod, land_15_eq_mod, land_128_beq]

/-- Claim C2, witness at a Meter buffer encoding battery 100,
temperature 23 and humidity 42. -/
theorem decode_data_meter_witness :
    (([0x54, 0x00, 0x64, 0x05, 0x97, 0x2A] : List Nat).length = 6) ∧
    (decode_model (byteAt [0x54, 0x00, 0x64, 0x05, 0x97, 0x2A] 0) =
        some SwitchBotDeviceModel.Meter ∨
     decode_model (byteAt [0x54, 0x00, 0x64, 0x05, 0x97, 0x2A] 0) =
        some SwitchBotDeviceModel.MeterPlus) ∧
    (∃ m, decode_model (byteAt [0x54, 0x00, 0x64, 0x05, 0x97, 0x2A] 0) = some m ∧
      decode_data [0x54, 0x00, 0x64, 0x05, 0x97, 0x2A] none =
        (some m,
         some (SwitchBotData.Meter (byteAt [0x54, 0x00, 0x64, 0x05, 0x97, 0x2A] 2 % 128)
           ((if (byteAt [0x54, 0x00, 0x64, 0x05, 0x97, 0x2A] 4).testBit 7 then (1 : Int) else -1) *
             ((byteAt [0x54, 0x00, 0x64, 0x05, 0x97, 0x2A] 4 % 128 +
               byteAt [0x54, 0x00, 0x64, 0x05, 0x97, 0x2A] 3 % 16 / 10 : Nat) : Int))
           (byteAt [0x54, 0x00, 0x64, 0x05, 0x97, 0x2A] 5 % 128))) ∧
      (byteAt [0x54, 0x00, 0x64, 0x05, 0x97, 0x2A] 3 % 16 ≤ 9 →
        byteAt [0x54, 0x00, 0x64, 0x05, 0x97, 0x2A] 3 % 16 / 10 = 0)) :=
  ⟨by decide, Or.inl (by decide),
   decode_data_meter _ none (by decide) (Or.inl (by decide))⟩

/-- Claim C7: when the first service byte classifies as `Humidifier`, a
buffer of length exactly 5 decodes to a Humidifier reading whose state is
bit 7 of byte 1, whose auto mode is bit 7 of byte 4, and whose humidity is
byte 4 mod 128 (both last fields read the same byte 4); any other length
of at least 3 is rejected with `(none, none)`. -/
theorem decode_data_humidifier (sd : List Nat) (md? : Option (List Nat))
    (h3 : 3 ≤ sd.length)
    (hm : decode_model (byteAt sd 0) = some SwitchBotDeviceModel.Humidifier) :
    decode_data sd md? =
      if sd.length = 5 then
        (some SwitchBotDeviceModel.Humidifier,
         some (SwitchBotData.Humidifier ((byteAt sd 1).testBit 7)
           (byteAt sd 4 % 128) ((byteAt sd 4).testBit 7)))
      else (none, none) := by
  unfold decode_data
  rw [if_neg (show ¬ sd.length < 3 by omega), hm]
  by_cases h : sd.length = 5 <;> simp [h, land_127_eq_mod, land_128_beq]

/-- Claim C7, witness at a Humidifier buffer: state on, auto mode on,
humidity 42. -/
theorem decode_data_humidifier_witness :
    3 ≤ ([0x65, 0x80, 0x00, 0x00, 0xAA] : List Nat).length ∧
    decode_model (byteAt [0x65, 0x80, 0x00, 0x00, 0xAA] 0) =
      some SwitchBotDeviceModel.Humidifier ∧
    decode_data [0x65, 0x80, 0x00, 0x00, 0xAA] none =
      (if ([0x65, 0x80, 0x00, 0x00, 0xAA] : List Nat).length = 5 then
        (some SwitchBotDeviceModel.Humidifier,
         some (SwitchBotData.Humidifier ((byteAt [0x65, 0x80, 0x00, 0x00, 0xAA] 1).testBit 7)
           (byteAt [0x65, 0x80, 0x00, 0x00, 0xAA] 4 % 128)
           ((byteAt [0x65, 0x80, 0x00, 0x00, 0xAA] 4).testBit 7)))
      else (none, none)) :=
  ⟨by decide, by decide, decode_data_humidifier _ none (by decide) (by decide)⟩

/-- Claim C6: when the first service byte classifies as `PlugMiniUS` or
`PlugMiniJP` (and the service buffer has at least 3 bytes), a missing
manufacturer buffer or one of length other than 12 is rejected with
`(none, none)`; a 12-byte manufacturer buffer decodes to that model and a
Plug reading with state exactly when byte 7 is `0x80`, overload exactly
when bit 7 of byte 10 is set, watts = ((byte 10 mod 128) * 256 + byte 11)
divided by 10 (truncating), and wifi rssi = minus byte 9, which is never
positive. -/
theorem decode_data_plug (sd : List Nat) (md? : Option (List Nat))
    (h3 : 3 ≤ sd.length)
    (hm : decode_model (byteAt sd 0) = some SwitchBotDeviceModel.PlugMiniUS ∨
          decode_model (byteAt sd 0) = some SwitchBotDeviceModel.PlugMiniJP) :
    (∃ m, decode_model (byteAt sd 0) = some m ∧
      decode_data sd md? =
        match md? with
        | none => (none, none)
        | some md =>
          if md.length = 12 then
            (some m,
             some (SwitchBotData.Plug (-(byteAt md 9 : Int)) (byteAt md 7 == 0x80)
               ((((byteAt md 10 % 128) * 256 + byteAt md 11) / 10 : Nat) : Int)
               ((byteAt md 10).testBit 7)))
          else (none, none)) ∧
    ∀ r s w o, (decode_data sd md?).2 = some (SwitchBotData.Plug r s w o) → r ≤ 0 := by
  have key : ∃ m, decode_model (byteAt sd 0) = some m ∧
      decode_data sd md? =
        match md? with
        | none => (none, none)
        | some md =>
          if md.length = 12 then
            (some m,
             some (SwitchBotData.Plug (-(byteAt md 9 : Int)) (byteAt md 7 == 0x80)
               ((((byteAt md 10 % 128) * 256 + byteAt md 11) / 10 : Nat) : Int)
               ((byteAt md 10).testBit 7)))
          else (none, none) := by
    rcases hm with hm | hm <;>
      · refine ⟨_, hm, ?_⟩
        unfold decode_data
        rw [if_neg (show ¬ sd.length < 3 by omega), hm]
        cases md? with
        | none => rfl
        | some md =>
          by_cases h : md.length = 12 <;>
            simp [h, land_127_eq_mod, land_128_beq, shiftLeft8_eq]
  refine ⟨key, ?_⟩
  obtain ⟨m, hm2, heq⟩ := key
  intro r s w o h
  rw [heq] at h
  cases md? with
  | none => simp at h
  | some md =>
    by_cases hl : md.length = 12 <;> simp [hl] at h
    obtain ⟨hr, -, -, -⟩ := h
    omega

/-- Claim C6, witness at a Plug buffer: state on, overload set,
watts 51, rssi -70. -/
theorem decode_data_plug_witness :
    3 ≤ ([0x67, 0x00, 0x00] : List Nat).length ∧
    (decode_model (byteAt [0x67, 0x00, 0x00] 0) = some SwitchBotDeviceModel.PlugMiniUS ∨
     decode_model (byteAt [0x67, 0x00, 0x00] 0) = some SwitchBotDeviceModel.PlugMiniJP) ∧
    ((∃ m, decode_model (byteAt [0x67, 0x00, 0x00] 0) = some m ∧
      decode_data [0x67, 0x00, 0x00]
          (some [0, 0, 0, 0, 0, 0, 0, 0x80, 0, 70, 0x81, 0xFF]) =
        match some [0, 0, 0, 0, 0, 0, 0, 0x80, 0, 70, 0x81, 0xFF] with
        | none => (none, none)
        | some md =>
          if md.length = 12 then
            (some m,
             some (SwitchBotData.Plug (-(byteAt md 9 : Int)) (byteAt md 7 == 0x80)
               ((((byteAt md 10 % 128) * 256 + byteAt md 11) / 10 : Nat) : Int)
               ((byteAt md 10).testBit 7)))
          else (none, none)) ∧
    ∀ r s w o,
      (decode_data [0x67, 0x00, 0x00]
          (some [0, 0, 0, 0, 0, 0, 0, 0x80, 0, 70, 0x81, 0xFF])).2 =
        some (SwitchBotData.Plug r s w o) → r ≤ 0) :=
  ⟨by decide, Or.inl (by decide),
   decode_data_plug _ _ (by decide) (Or.inl (by decide))⟩

set_option maxRecDepth 4000 in
theorem decode_model_class_aux :
    ∀ b, b < 256 →
      decode_model b = decode_model (b % 128) ∧
      (decode_model b).map modelCode =
        (if b % 128 ∈ knownModelCodes then some (b % 128) else none) := by
  decide

/-- Claim C3, counterexample: among the 128 possible masked byte values the
classifier accepts exactly 22, not 21. -/
theorem decode_model_count_cex :
    ((List.range 128).filter (fun b => (decode_model b).isSome)).length = 22 ∧
    (22 : Nat) ≠ 21 := by decide

/-- Claim C3, amended: for every byte, classification is unchanged by
clearing the high bit, and the result is `some` exactly when the masked
value is one of the 22 known model codes (all lying in [0x42, 0x75], all
distinct), in which case the returned variant is the one whose
discriminant equals the masked value. -/
theorem decode_model_classification (b : Nat) (hb : b < 256) :
    decode_model b = decode_model (b % 128) ∧
    (decode_model b).map modelCode =
      (if b % 128 ∈ knownModelCodes then some (b % 128) else none) ∧
    knownModelCodes.length = 22 ∧
    (∀ c ∈ knownModelCodes, 0x42 ≤ c ∧ c ≤ 0x75) ∧
    knownModelCodes.Nodup :=
  ⟨(decode_model_class_aux b hb).1, (decode_model_class_aux b hb).2,
   by decide, by decide, by decide⟩

/-- Claim C3, witness at the byte 0xC8 (Bot code with the high bit set). -/
theorem decode_model_classification_witness :
    (0xC8 : Nat) < 256 ∧
    (decode_model 0xC8 = decode_model (0xC8 % 128) ∧
     (decode_model 0xC8).map modelCode =
       (if 0xC8 % 128 ∈ knownModelCodes then some (0xC8 % 128) else none) ∧
     knownModelCodes.length = 22 ∧
     (∀ c ∈ knownModelCodes, 0x42 ≤ c ∧ c ≤ 0x75) ∧
     knownModelCodes.Nodup) :=
  ⟨by decide, decode_model_classification 0xC8 (by decide)⟩

theorem familyMatches_decodable (m : SwitchBotDeviceModel) (r : SwitchBotData)
    (h : familyMatches m r = true) : familyDecodable m = true := by
  cases m <;> cases r <;> simp_all [familyMatches, familyDecodable]

theorem decode_data_shape (sd : List Nat) (md? : Option (List Nat)) :
    decode_data sd md? = (none, none) ∨
    ∃ m r, decode_data sd md? = (some m, some r) ∧
      decode_model (byteAt sd 0) = some m ∧ familyMatches m r = true := by
  by_cases h3 : sd.length < 3
  · left
    simp [decode_data, h3]
  · rcases hdm : decode_model (byteAt sd 0) with _ | model
    · left
      simp [decode_data, h3, hdm]
    · cases model <;> cases md?
      all_goals simp [decode_data, h3, hdm, familyMatches]
      all_goals try split_ifs
      all_goals
        first
          | assumption
          | (left
             assumption)
          | (refine Or.inr ⟨_, _, rfl, rfl, ?_⟩
             rfl)

/-- Claim C8, counterexample: the classifiable models that never produce a
reading (those outside the Bot, Meter, Humidifier and Plug families)
number 16, not 17. -/
theorem decode_data_pairing_cex :
    ((knownModelCodes.filterMap decode_model).filter
        (fun m => !(familyDecodable m))).length = 16 ∧
    (16 : Nat) ≠ 17 := by decide

/-- Claim C8, amended: the two components of `decode_data` are `some`
together or `none` together (so `(some model, none)` is never returned and
the 16 classifiable-but-undecodable models yield `(none, none)`), and any
returned reading's variant matches the returned model's family. -/
theorem decode_data_pairing (sd : List Nat) (md? : Option (List Nat)) :
    ((decode_data sd md?).1.isSome ↔ (decode_data sd md?).2.isSome) ∧
    (∀ m r, decode_data sd md? = (some m, some r) → familyMatches m r = true) ∧
    (∀ m, decode_model (byteAt sd 0) = some m → familyDecodable m = false →
      decode_data sd md? = (none, none)) := by
  rcases decode_data_shape sd md? with h | ⟨m, r, heq, hdm, hfam⟩
  · rw [h]
    refine ⟨by simp, ?_, ?_⟩
    · intro m r hmr
      simp at hmr
    · intro m _ _
      rfl
  · rw [heq]
    refine ⟨by simp, ?_, ?_⟩
    · intro m' r' hmr
      injection hmr with h1 h2
      injection h1 with h1
      injection h2 with h2
      subst h1
      subst h2
      exact hfam
    · intro m' hdm' hdec
      rw [hdm] at hdm'
      injection hdm' with h
      subst h
      have ht := familyMatches_decodable _ r hfam
      rw [ht] at hdec
      cases hdec

/-- Claim C9: `decode_data` is total and panic-free. The instrumented
`decode_dataChecked`, which returns `none` at every potential panic site
(unguarded index, machine-integer overflow), returns `some` of the
original result on every service buffer and every optional manufacturer
buffer of bytes. -/
theorem decode_data_no_panic (sd : List Nat) (md? : Option (List Nat))
    (hmd : ∀ md, md? = some md → ∀ b ∈ md, b < 256) :
    decode_dataChecked sd md? = some (decode_data sd md?) := by
  unfold decode_dataChecked decode_data
  by_cases h3 : sd.length < 3
  · simp [h3]
  · rw [if_neg h3, if_neg h3]
    simp only [byteAt_getElem? sd 0 (by omega)]
    rcases hdm : decode_model (byteAt sd 0) with _ | model
    · simp [hdm]
    · simp only [hdm]
      cases model
      · simp
      · simp
      · -- Bot
        by_cases hl : sd.length = 3
        · simp only [byteAt_getElem? sd 1 (by omega), byteAt_getElem? sd 2 (by omega), hl]
          simp
        · simp [hl]
      · simp
      · simp
      · simp
      · -- Meter
        by_cases hl : sd.length = 6
        · simp only [byteAt_getElem? sd 2 (by omega), byteAt_getElem? sd 3 (by omega),
            byteAt_getElem? sd 4 (by omega), byteAt_getElem? sd 5 (by omega), hl]
          simp
          have hb4 : byteAt sd 4 &&& 127 ≤ 127 := Nat.and_le_right
          have hb3 : byteAt sd 3 &&& 15 ≤ 15 := Nat.and_le_right
          split_ifs <;> omega
        · simp [hl]
      · simp
      · simp
      · -- Humidifier
        by_cases hl : sd.length = 5
        · simp only [byteAt_getElem? sd 1 (by omega), byteAt_getElem? sd 4 (by omega), hl]
          simp
        · simp [hl]
      · simp
      · -- PlugMiniUS
        rcases hmq : md? with _ | md
        · simp
        · have hbytes := hmd md hmq
          by_cases hl : md.length = 12
          · have hb9 : byteAt md 9 < 256 := hbytes _ (byteAt_mem md 9 (by omega))
            have hb11 : byteAt md 11 < 256 := hbytes _ (byteAt_mem md 11 (by omega))
            have hsh : (byteAt md 10 &&& 127) <<< 8 ≤ 32512 := by
              have h10 : byteAt md 10 &&& 127 ≤ 127 := Nat.and_le_right
              rw [shiftLeft8_eq]
              omega
            have c1 : ¬(32767 < (byteAt md 10 &&& 127) <<< 8) := by omega
            have c2 : ¬(32767 < (byteAt md 10 &&& 127) <<< 8 + byteAt md 11) := by omega
            have c3 : ¬(32767 < byteAt md 9) := by omega
            simp only [byteAt_getElem? md 7 (by omega), byteAt_getElem? md 9 (by omega),
              byteAt_getElem? md 10 (by omega), byteAt_getElem? md 11 (by omega), hl]
            simp [c1, c2, c3]
          · simp [hl]
      · -- MeterPlus
        by_cases hl : sd.length = 6
        · simp only [byteAt_getElem? sd 2 (by omega), byteAt_getElem? sd 3 (by omega),
            byteAt_getElem? sd 4 (by omega), byteAt_getElem? sd 5 (by omega), hl]
          simp
          have hb4 : byteAt sd 4 &&& 127 ≤ 127 := Nat.and_le_right
          have hb3 : byteAt sd 3 &&& 15 ≤ 15 := Nat.and_le_right
          split_ifs <;> omega
        · simp [hl]
      · -- PlugMiniJP
        rcases hmq : md? with _ | md
        · simp
        · have hbytes := hmd md hmq
          by_cases hl : md.length = 12
          · have hb9 : byteAt md 9 < 256 := hbytes _ (byteAt_mem md 9 (by omega))
            have hb11 : byteAt md 11 < 256 := hbytes _ (byteAt_mem md 11 (by omega))
            have hsh : (byteAt md 10 &&& 127) <<< 8 ≤ 32512 := by
              have h10 : byteAt md 10 &&& 127 ≤ 127 := Nat.and_le_right
              rw [shiftLeft8_eq]
              omega
            have c1 : ¬(32767 < (byteAt md 10 &&& 127) <<< 8) := by omega
            have c2 : ¬(32767 < (byteAt md 10 &&& 127) <<< 8 + byteAt md 11) := by omega
            have c3 : ¬(32767 < byteAt md 9) := by omega
            simp only [byteAt_getElem? md 7 (by omega), byteAt_getElem? md 9 (by omega),
              byteAt_getElem? md 10 (by omega), byteAt_getElem? md 11 (by omega), hl]
            simp [c1, c2, c3]
          · simp [hl]
      · simp
      · simp
      · simp
      · simp
      · simp
      · simp
      · simp
      · simp

/-- Claim C9, witness at a Plug input exercising the arithmetic checks. -/
theorem decode_data_no_panic_witness :
    (∀ md, (some [0, 0, 0, 0, 0, 0, 0, 0x80, 0, 70, 0x81, 0xFF] : Option (List Nat)) = some md →
        ∀ b ∈ md, b < 256) ∧
    decode_dataChecked [0x67, 0, 0] (some [0, 0, 0, 0, 0, 0, 0, 0x80, 0, 70, 0x81, 0xFF]) =
      some (decode_data [0x67, 0, 0] (some [0, 0, 0, 0, 0, 0, 0, 0x80, 0, 70, 0x81, 0xFF])) :=
  ⟨fun md h => by
      injection h with h
      subst h
      decide,
   decode_data_no_panic _ _ (fun md h => by
      injection h with h
      subst h
      decide)⟩

/-- Claim C10: every Plug reading `decode_data` returns (from byte
buffers) has watts in [0, 3276] — never negative despite the signed type,
since the dividend is at most 0x7F * 256 + 0xFF = 32767 — and wifi rssi
in [-255, 0]. -/
theorem decode_data_plug_range (sd : List Nat) (md? : Option (List Nat))
    (hmd : ∀ md, md? = some md → ∀ b ∈ md, b < 256)
    (r : Int) (s : Bool) (w : Int) (o : Bool)
    (h : (decode_data sd md?).2 = some (SwitchBotData.Plug r s w o)) :
    0 ≤ w ∧ w ≤ 3276 ∧ -255 ≤ r ∧ r ≤ 0 := by
  unfold decode_data at h
  by_cases h3 : sd.length < 3
  · rw [if_pos h3] at h
    simp at h
  · rw [if_neg h3] at h
    rcases hdm : decode_model (byteAt sd 0) with _ | model
    · simp only [hdm] at h
      simp at h
    · simp only [hdm] at h
      cases model
      · simp at h
      · simp at h
      · -- Bot
        simp at h
        split at h <;> simp at h
      · simp at h
      · simp at h
      · simp at h
      · -- Meter
        simp at h
        split at h <;> simp at h
      · simp at h
      · simp at h
      · -- Humidifier
        simp at h
        split at h <;> simp at h
      · simp at h
      · -- PlugMiniUS
        rcases md? with _ | md
        · simp at h
        · by_cases hl : md.length = 12
          · simp [hl] at h
            obtain ⟨hr, hs, hw, ho⟩ := h
            have hb9 : byteAt md 9 < 256 := hmd md rfl _ (byteAt_mem md 9 (by omega))
            have hb11 : byteAt md 11 < 256 := hmd md rfl _ (byteAt_mem md 11 (by omega))
            have h10 : byteAt md 10 &&& 127 ≤ 127 := Nat.and_le_right
            have e := shiftLeft8_eq (byteAt md 10 &&& 127)
            omega
          · simp [hl] at h
      · -- MeterPlus
        simp at h
        split at h <;> simp at h
      · -- PlugMiniJP
        rcases md? with _ | md
        · simp at h
        · by_cases hl : md.length = 12
          · simp [hl] at h
            obtain ⟨hr, hs, hw, ho⟩ := h
            have hb9 : byteAt md 9 < 256 := hmd md rfl _ (byteAt_mem md 9 (by omega))
            have hb11 : byteAt md 11 < 256 := hmd md rfl _ (byteAt_mem md 11 (by omega))
            have h10 : byteAt md 10 &&& 127 ≤ 127 := Nat.and_le_right
            have e := shiftLeft8_eq (byteAt md 10 &&& 127)
            omega
          · simp [hl] at h
      · simp at h
      · simp at h
      · simp at h
      · simp at h
      · simp at h
      · simp at h
      · simp at h
      · simp at h

/-- Claim C10, witness at a Plug input with watts 51 and rssi -70. -/
theorem decode_data_plug_range_witness :
    (∀ md, (some [0, 0, 0, 0, 0, 0, 0, 0x80, 0, 70, 0x81, 0xFF] : Option (List Nat)) = some md →
        ∀ b ∈ md, b < 256) ∧
    (decode_data [0x67, 0, 0] (some [0, 0, 0, 0, 0, 0, 0, 0x80, 0, 70, 0x81, 0xFF])).2 =
      some (SwitchBotData.Plug (-70) true 51 true) ∧
    (0 ≤ (51 : Int) ∧ (51 : Int) ≤ 3276 ∧ (-255 : Int) ≤ -70 ∧ (-70 : Int) ≤ 0) :=
  ⟨fun md h => by
      injection h with h
      subst h
      decide,
   by decide,
   decode_data_plug_range [0x67, 0, 0] (some [0, 0, 0, 0, 0, 0, 0, 0x80, 0, 70, 0x81, 0xFF])
     (fun md h => by
        injection h with h
        subst h
        decide) (-70) true 51 true (by decide)⟩
